import Mathlib

/-!
Verification of the Sweet Shop Management System (FastAPI + sqlite inventory
service). The data model and operations below are a shallow embedding of
`src/database.py`, `src/models.py` and `src/main.py`.

Modelling conventions:
- The sqlite store (tables `users` and `sweets`, `src/database.py` lines
  14-44) is a pair of lists together with the AUTOINCREMENT counters for the
  next primary key. `INTEGER PRIMARY KEY AUTOINCREMENT` ids start at 1 and
  are never reused, hence the counters.
- Python `int` is unbounded, so quantities are `Int`. The `price REAL`
  column only ever flows through the operations under verification (no
  arithmetic is performed on it), so it is carried as `Rat`.
- `created_at` is set from `datetime.now().isoformat()`; wall-clock time is
  an explicit `String` argument to the operations that store it.
- Each Python function returning a value and mutating the store becomes a
  Lean function `... → α × DB`.
-/

namespace SweetShop

/-- Row of the `sweets` table (`src/database.py` lines 31-40): id, name,
category, price, quantity, created_at. -/
structure Sweet where
  id : Nat
  name : String
  category : String
  price : Rat
  quantity : Int
  created_at : String
deriving DecidableEq, Repr

/-- Row of the `users` table (`src/database.py` lines 20-28): id, username,
password_hash, is_admin (stored as 0/1, carried as Bool), created_at. -/
structure User where
  id : Nat
  username : String
  password_hash : String
  is_admin : Bool
  created_at : String
deriving DecidableEq, Repr

/-- The whole sqlite database file `sweet_shop.db`: both tables plus the
AUTOINCREMENT state of each primary key. -/
structure DB where
  users : List User
  sweets : List Sweet
  nextUserId : Nat
  nextSweetId : Nat
deriving DecidableEq, Repr

/-- The freshly initialised database (`init_database`): both tables empty,
AUTOINCREMENT ids starting at 1. -/
def emptyDB : DB := DB.mk [] [] 1 1

/-- Replace the `sweets` table, keeping everything else. -/
def DB.withSweets (db : DB) (l : List Sweet) : DB :=
  DB.mk db.users l db.nextUserId db.nextSweetId

/-- Copy of a sweet row with only the quantity column replaced, the effect of
the SQL statement `UPDATE sweets SET quantity = ? WHERE id = ?` on one row. -/
def Sweet.withQuantity (s : Sweet) (q : Int) : Sweet :=
  Sweet.mk s.id s.name s.category s.price q s.created_at

/-- Effect of `UPDATE sweets SET quantity = ? WHERE id = ?` on the whole
table: every row whose id matches gets the new quantity (the primary key is
unique, so at most one row matches in practice). -/
def setQuantity (sid : Nat) (q : Int) (l : List Sweet) : List Sweet :=
  l.map (fun s => if s.id = sid then s.withQuantity q else s)

/-- `get_user_by_username` (`src/database.py` lines 46-53):
`SELECT * FROM users WHERE username = ?`, first row or None. -/
def get_user_by_username (username : String) (db : DB) : Option User :=
  db.users.find? (fun u => u.username == username)

/-- `create_user` (`src/database.py` lines 55-66): INSERT a row with the next
AUTOINCREMENT id and return `lastrowid`. The `username TEXT UNIQUE` constraint
makes the INSERT fail (sqlite IntegrityError) when the username is taken,
rendered here as `none`. -/
def create_user (username password_hash : String) (is_admin : Bool)
    (now : String) (db : DB) : Option (Nat × DB) :=
  if db.users.any (fun u => u.username == username) then none
  else
    let uid := db.nextUserId
    some (uid, DB.mk (db.users ++ [User.mk uid username password_hash is_admin now])
      db.sweets (uid + 1) db.nextSweetId)

/-- `get_sweet_by_id` (`src/database.py` lines 68-75):
`SELECT * FROM sweets WHERE id = ?`, first row or None. -/
def get_sweet_by_id (sweet_id : Nat) (db : DB) : Option Sweet :=
  db.sweets.find? (fun s => s.id == sweet_id)

/-- `create_sweet` (`src/database.py` lines 86-97): INSERT a row with the next
AUTOINCREMENT id and return `lastrowid`. No validation of any field. -/
def create_sweet (name category : String) (price : Rat) (quantity : Int)
    (now : String) (db : DB) : Nat × DB :=
  let sid := db.nextSweetId
  (sid, DB.mk db.users (db.sweets ++ [Sweet.mk sid name category price quantity now])
    db.nextUserId (sid + 1))

/-- `update_sweet` (`src/database.py` lines 99-130): update the provided
fields of the row with the given id; returns False when no field was provided,
otherwise `rowcount > 0`, i.e. whether a row matched. -/
def update_sweet (sweet_id : Nat) (name category : Option String)
    (price : Option Rat) (quantity : Option Int) (db : DB) : Bool × DB :=
  if name.isNone ∧ category.isNone ∧ price.isNone ∧ quantity.isNone then
    (false, db)
  else
    (db.sweets.any (fun s => s.id == sweet_id),
      db.withSweets (db.sweets.map (fun s =>
        if s.id = sweet_id then
          Sweet.mk s.id (name.getD s.name) (category.getD s.category)
            (price.getD s.price) (quantity.getD s.quantity) s.created_at
        else s)))

/-- `delete_sweet` (`src/database.py` lines 132-140):
`DELETE FROM sweets WHERE id = ?`; returns `rowcount > 0`. -/
def delete_sweet (sweet_id : Nat) (db : DB) : Bool × DB :=
  (db.sweets.any (fun s => s.id == sweet_id),
    db.withSweets (db.sweets.filter (fun s => !(s.id == sweet_id))))

/-- `purchase_sweet` (`src/database.py` lines 170-189): read the quantity of
the row; missing row or `current_quantity < quantity` returns False with the
store untouched; otherwise write `current_quantity - quantity` and return
True. -/
def purchase_sweet (sweet_id : Nat) (quantity : Int) (db : DB) : Bool × DB :=
  match get_sweet_by_id sweet_id db with
  | none => (false, db)
  | some row =>
    if row.quantity < quantity then (false, db)
    else (true, db.withSweets (setQuantity sweet_id (row.quantity - quantity) db.sweets))

/-- `restock_sweet` (`src/database.py` lines 191-206): read the quantity of
the row; missing row returns False; otherwise write
`current_quantity + quantity` unconditionally and return True. -/
def restock_sweet (sweet_id : Nat) (quantity : Int) (db : DB) : Bool × DB :=
  match get_sweet_by_id sweet_id db with
  | none => (false, db)
  | some row =>
    (true, db.withSweets (setQuantity sweet_id (row.quantity + quantity) db.sweets))

/-- Outcome of an HTTP endpoint (`src/main.py`): either a response body or a
raised `HTTPException` with a status code and detail string. -/
inductive ApiResult (α : Type) where
  | ok : α → ApiResult α
  | err : Nat → String → ApiResult α
deriving DecidableEq, Repr

/-- `purchase_sweet_endpoint` (`src/main.py` lines 212-233), after the auth
dependency has resolved: 404 when the sweet does not exist, 400
"Insufficient quantity in stock" when `purchase_sweet` returns False,
otherwise the re-read updated row. The re-read returning no row would crash
`SweetResponse(**None)`, i.e. a 500, which is unreachable after a successful
purchase. -/
def purchase_sweet_endpoint (sweet_id : Nat) (quantity : Int) (db : DB) :
    ApiResult Sweet × DB :=
  match get_sweet_by_id sweet_id db with
  | none => (ApiResult.err 404 "Sweet not found", db)
  | some _ =>
    let r := purchase_sweet sweet_id quantity db
    if r.1 then
      match get_sweet_by_id sweet_id r.2 with
      | some updated => (ApiResult.ok updated, r.2)
      | none => (ApiResult.err 500 "Internal Server Error", r.2)
    else (ApiResult.err 400 "Insufficient quantity in stock", r.2)

/-- `restock_sweet_endpoint` (`src/main.py` lines 235-251), after the auth
dependency has resolved: 404 when the sweet does not exist, otherwise
`restock_sweet` (whose Boolean result is ignored) followed by a re-read of
the updated row. -/
def restock_sweet_endpoint (sweet_id : Nat) (quantity : Int) (db : DB) :
    ApiResult Sweet × DB :=
  match get_sweet_by_id sweet_id db with
  | none => (ApiResult.err 404 "Sweet not found", db)
  | some _ =>
    let r := restock_sweet sweet_id quantity db
    match get_sweet_by_id sweet_id r.2 with
    | some updated => (ApiResult.ok updated, r.2)
    | none => (ApiResult.err 500 "Internal Server Error", r.2)

/-!
The token service lives in `auth.py`, which `src/main.py` imports (lines
16-18) but which is not among the provided source files; its behaviour below
is modelled from the specification (section 4.2 Token Service).
-/

/-- Claims carried inside a token: subject username and admin flag
(`data={"sub": ..., "is_admin": ...}` at `src/main.py` line 131). -/
structure TokenPayload where
  sub : String
  is_admin : Bool
deriving DecidableEq, Repr

/-- A bearer token string as presented by a client: either not a well-formed
signed token at all, or a signed token carrying a payload, an expiration
instant, and the secret it was signed with (a forged token is one signed
with a key different from the secret of the service). -/
inductive PresentedToken where
  | malformed : PresentedToken
  | signed : TokenPayload → Int → String → PresentedToken
deriving DecidableEq, Repr

/-- Modelled from the spec: `hash_password` of the missing `auth.py`
(section 4.1 Credential Hasher) — a one-way transform producing an opaque
hash string, never the plaintext. Its output is only stored, never inspected,
by the operations under verification, so any injective stand-in is
adequate. -/
def hash_password (plaintext : String) : String :=
  "pbkdf2$" ++ plaintext

/-- Modelled from the spec: `create_access_token` of the missing `auth.py`
(section 4.2 Token Service) — issues a signed token embedding the payload and
an expiration instant `now + validity window`, signed with the process-wide
secret. -/
def create_access_token (payload : TokenPayload) (now window : Int)
    (secret : String) : PresentedToken :=
  PresentedToken.signed payload (now + window) secret

/-- Modelled from the spec: `verify_token` of the missing `auth.py`
(section 4.2 Token Service) — validates signature and expiration and returns
the decoded payload, or `none` (never an exception) when the token is
malformed, signed under a different secret, or `current time ≥ expiration`
(expiration is strict, no clock-skew compensation). -/
def verify_token (t : PresentedToken) (now : Int) (secret : String) :
    Option TokenPayload :=
  match t with
  | PresentedToken.malformed => none
  | PresentedToken.signed payload exp key =>
    if key = secret ∧ now < exp then some payload else none

/-- The identity record `get_current_user` attaches to the request context
(`src/main.py` lines 52-56). -/
structure CurrentUser where
  id : Nat
  username : String
  is_admin : Bool
deriving DecidableEq, Repr

/-- `get_current_user` (`src/main.py` lines 36-56) composed with its
`Depends(security)` where `security = HTTPBearer()` (line 33). The first step
embeds fastapi.security.HTTPBearer with its default `auto_error=True`: a
request without bearer credentials is rejected with status 403
"Not authenticated" by the framework before the function body runs. With
credentials present: a token that fails `verify_token` gives 401 "Invalid or
expired token"; a subject username that no longer resolves gives 401
"User not found"; otherwise the identity record is returned. -/
def get_current_user (cred : Option PresentedToken) (now : Int)
    (secret : String) (db : DB) : ApiResult CurrentUser :=
  match cred with
  | none => ApiResult.err 403 "Not authenticated"
  | some token =>
    match verify_token token now secret with
    | none => ApiResult.err 401 "Invalid or expired token"
    | some payload =>
      match get_user_by_username payload.sub db with
      | none => ApiResult.err 401 "User not found"
      | some u => ApiResult.ok (CurrentUser.mk u.id u.username u.is_admin)

/-- `get_admin_user` (`src/main.py` lines 59-66): the resolved identity must
have the admin flag, otherwise 403 "Admin access required". -/
def get_admin_user (cred : Option PresentedToken) (now : Int)
    (secret : String) (db : DB) : ApiResult CurrentUser :=
  match get_current_user cred now secret db with
  | ApiResult.err c d => ApiResult.err c d
  | ApiResult.ok u =>
    if u.is_admin then ApiResult.ok u
    else ApiResult.err 403 "Admin access required"

/-- The admin-only restock route as served: the `get_admin_user` dependency
runs first and any rejection short-circuits with the store untouched;
otherwise the endpoint body `restock_sweet_endpoint` executes
(`src/main.py` lines 235-251). -/
def restock_route (cred : Option PresentedToken) (now : Int) (secret : String)
    (sweet_id : Nat) (quantity : Int) (db : DB) : ApiResult Sweet × DB :=
  match get_admin_user cred now secret db with
  | ApiResult.err c d => (ApiResult.err c d, db)
  | ApiResult.ok _ => restock_sweet_endpoint sweet_id quantity db

/-- `register` (`src/main.py` lines 106-132): reject a taken username with
400 "Username already exists"; otherwise count the existing users, grant
admin when the store was empty or the submitted admin_key equals the
hard-coded `ADMIN_KEY = "aswd"` (line 117, exact string equality; a missing
key never matches), hash the password, insert the user, and answer with a
freshly issued access token. The unreachable 500 branch is the sqlite
IntegrityError that the preceding username check rules out. -/
def register (username password : String) (admin_key : Option String)
    (now : String) (tnow window : Int) (secret : String) (db : DB) :
    ApiResult PresentedToken × DB :=
  if (get_user_by_username username db).isSome then
    (ApiResult.err 400 "Username already exists", db)
  else
    let user_count := db.users.length
    let is_admin : Bool := decide (user_count = 0) || decide (admin_key = some "aswd")
    match create_user username (hash_password password) is_admin now db with
    | none => (ApiResult.err 500 "Internal Server Error", db)
    | some r =>
      (ApiResult.ok (create_access_token (TokenPayload.mk username is_admin) tnow window secret), r.2)

/-- One public inventory operation, as reachable through the HTTP surface
(`src/main.py`): add-item, field update, purchase, restock, delete. -/
inductive Op where
  | createSweet : String → String → Rat → Int → String → Op
  | updateSweet : Nat → Option String → Option String → Option Rat → Option Int → Op
  | purchase : Nat → Int → Op
  | restock : Nat → Int → Op
  | deleteSweet : Nat → Op
deriving DecidableEq, Repr

/-- Effect of one public operation on the store (return values dropped). -/
def applyOp (op : Op) (db : DB) : DB :=
  match op with
  | Op.createSweet n c p q t => (create_sweet n c p q t db).2
  | Op.updateSweet i n c p q => (update_sweet i n c p q db).2
  | Op.purchase i q => (purchase_sweet i q db).2
  | Op.restock i q => (restock_sweet i q db).2
  | Op.deleteSweet i => (delete_sweet i db).2

/-- Effect of a sequence of public operations, first operation first. -/
def runOps (ops : List Op) (db : DB) : DB :=
  ops.foldl (fun d op => applyOp op d) db

/-!
Concrete stores used to instantiate the theorems below, built through the
operations themselves (so each is a reachable state).
-/

/-- Store holding the Ladoo item of the spec scenario, stock 10. -/
def dbLadoo : DB := (create_sweet "Ladoo" "Indian" (5/2 : Rat) 10 "t0" emptyDB).2

/-- The same store after `purchase(1, 7)`: stock 3. -/
def dbLadoo3 : DB := (purchase_sweet 1 7 dbLadoo).2

/-- Store holding an item created through the add-item endpoint with the
(unvalidated) quantity -1. -/
def dbNeg : DB := runOps [Op.createSweet "Barfi" "Indian" 1 (-1) "t0"] emptyDB

/-- Store after registering the first account, alice (admin by count zero). -/
def dbAlice : DB := (register "alice" "pw" none "t1" 0 24 "k" emptyDB).2

/-- Store after additionally registering bob without the admin key (bob is
not an admin). -/
def dbUsers2 : DB := (register "bob" "pw" none "t2" 0 24 "k" dbAlice).2

/-- A valid, unexpired token for the non-admin account bob. -/
def tokBob : PresentedToken := PresentedToken.signed (TokenPayload.mk "bob" false) 24 "k"

/-- A valid, unexpired token whose subject resolves to no account. -/
def tokGhost : PresentedToken := PresentedToken.signed (TokenPayload.mk "ghost" true) 24 "k"

/-!
Helper lemmas about the embedded sqlite statements: how `SELECT ... WHERE
id = ?` interacts with `UPDATE ... WHERE id = ?` and `DELETE ... WHERE id = ?`.
-/

/-- Re-assembling a sweet with its own quantity is the identity. -/
theorem Sweet.withQuantity_self (s : Sweet) : s.withQuantity s.quantity = s := rfl

/-- Unfolding of the quantity update on a table with a first row. -/
theorem setQuantity_cons (sid : Nat) (q : Int) (x : Sweet) (xs : List Sweet) :
    setQuantity sid q (x :: xs)
      = (if x.id = sid then x.withQuantity q else x) :: setQuantity sid q xs := rfl

/-- Selecting a different id is unaffected by a quantity update. -/
theorem find?_id_setQuantity_ne (sid j : Nat) (q : Int) (l : List Sweet)
    (h : j ≠ sid) :
    (setQuantity sid q l).find? (fun s => s.id == j) = l.find? (fun s => s.id == j) := by
  induction l with
  | nil => rfl
  | cons x xs ih =>
    rw [setQuantity_cons]
    by_cases hx : x.id = sid
    · have hb : (x.id == j) = false := by
        simp only [beq_eq_false_iff_ne, hx]
        exact Ne.symm h
      have hb' : ((x.withQuantity q).id == j) = false := hb
      rw [if_pos hx]
      simp only [List.find?, hb, hb']
      exact ih
    · rw [if_neg hx]
      cases hxj : (x.id == j) with
      | true => simp only [List.find?, hxj]
      | false =>
        simp only [List.find?, hxj]
        exact ih

/-- Selecting the updated id after a quantity update returns the old row with
only the quantity replaced. -/
theorem find?_id_setQuantity_eq (sid : Nat) (q : Int) (l : List Sweet) (s : Sweet)
    (h : l.find? (fun x => x.id == sid) = some s) :
    (setQuantity sid q l).find? (fun x => x.id == sid) = some (s.withQuantity q) := by
  induction l with
  | nil => simp [List.find?] at h
  | cons x xs ih =>
    rw [setQuantity_cons]
    cases hx : (x.id == sid) with
    | true =>
      simp only [List.find?, hx] at h
      have hxs : x = s := by injection h
      subst hxs
      have hid : x.id = sid := by simpa [beq_iff_eq] using hx
      have hb' : ((x.withQuantity q).id == sid) = true := hx
      rw [if_pos hid]
      simp only [List.find?, hb']
    | false =>
      simp only [List.find?, hx] at h
      have hid : ¬ x.id = sid := by simpa [beq_eq_false_iff_ne] using hx
      rw [if_neg hid]
      simp only [List.find?, hx]
      exact ih h

/-- After deleting an id, selecting that id finds nothing. -/
theorem find?_id_filter_ne (sid : Nat) (l : List Sweet) :
    (l.filter (fun s => !(s.id == sid))).find? (fun s => s.id == sid) = none := by
  induction l with
  | nil => rfl
  | cons x xs ih =>
    rw [List.filter_cons]
    cases hx : (x.id == sid) with
    | true =>
      simp only [hx, Bool.not_true, Bool.false_eq_true, if_false]
      exact ih
    | false =>
      simp only [hx, Bool.not_false, if_true]
      simp only [List.find?, hx]
      exact ih

/-- `get_sweet_by_id` lifted to the quantity-update, same id. -/
theorem get_sweet_by_id_setQuantity_eq (sid : Nat) (q : Int) (db : DB) (s : Sweet)
    (h : get_sweet_by_id sid db = some s) :
    get_sweet_by_id sid (db.withSweets (setQuantity sid q db.sweets)) = some (s.withQuantity q) :=
  find?_id_setQuantity_eq sid q db.sweets s h

/-- `get_sweet_by_id` lifted to the quantity-update, different id. -/
theorem get_sweet_by_id_setQuantity_ne (sid j : Nat) (q : Int) (db : DB)
    (h : j ≠ sid) :
    get_sweet_by_id j (db.withSweets (setQuantity sid q db.sweets)) = get_sweet_by_id j db :=
  find?_id_setQuantity_ne sid j q db.sweets h

/-- A deleted sweet no longer resolves. -/
theorem get_sweet_by_id_delete (sid : Nat) (db : DB) :
    get_sweet_by_id sid (delete_sweet sid db).2 = none :=
  find?_id_filter_ne sid db.sweets

/-- A username with no matching row also fails the `any` scan backing the
UNIQUE constraint check of `create_user`. -/
theorem users_any_eq_false (username : String) (db : DB)
    (h : get_user_by_username username db = none) :
    db.users.any (fun u => u.username == username) = false := by
  have h' : ∀ u ∈ db.users, ¬ ((fun u : User => u.username == username) u = true) :=
    List.find?_eq_none.mp h
  cases hl : db.users.any (fun u => u.username == username)
  · rfl
  · obtain ⟨x, hx, hpx⟩ := List.any_eq_true.mp hl
    exact absurd hpx (h' x hx)

/-!
Claim theorems.
-/

/-- C1: the claim states that for every reachable state of the inventory
store every quantity is non-negative — no sequence of the public operations
(add-item, field update, purchase, restock, delete) can produce an item whose
stored quantity is below 0. Evaluating the embedded code refutes this: the
add-item operation stores an unvalidated negative initial quantity, and the
restock operation adds an unvalidated negative quantity to stock 0, so both
sequences below end with a stored quantity strictly below 0. -/
theorem C1_negative_quantity_reachable :
    get_sweet_by_id 1 (runOps [Op.createSweet "Barfi" "Indian" 1 (-1) "t0"] emptyDB)
      = some (Sweet.mk 1 "Barfi" "Indian" 1 (-1) "t0")
    ∧ (Sweet.mk 1 "Barfi" "Indian" 1 (-1) "t0").quantity < 0
    ∧ get_sweet_by_id 1
        (runOps [Op.createSweet "Barfi" "Indian" 1 0 "t0", Op.restock 1 (-5)] emptyDB)
      = some (Sweet.mk 1 "Barfi" "Indian" 1 (-5) "t0")
    ∧ (Sweet.mk 1 "Barfi" "Indian" 1 (-5) "t0").quantity < 0 := by
  exact ⟨rfl, by decide, rfl, by decide⟩

/-- C2: for an existing item with stock s and positive quantity q, the
purchase operation succeeds iff s ≥ q; on success the stock becomes exactly
s - q and the endpoint answers with the updated row; on insufficient stock
(s < q) the store is unchanged and the endpoint raises 400
"Insufficient quantity in stock". -/
theorem C2_purchase_sufficiency (sweet_id : Nat) (q : Int) (db : DB) (s : Sweet)
    (h : get_sweet_by_id sweet_id db = some s) (hq : 0 < q) :
    ((purchase_sweet sweet_id q db).1 = true ↔ q ≤ s.quantity)
    ∧ (q ≤ s.quantity →
        get_sweet_by_id sweet_id (purchase_sweet sweet_id q db).2
          = some (s.withQuantity (s.quantity - q))
        ∧ purchase_sweet_endpoint sweet_id q db
          = (ApiResult.ok (s.withQuantity (s.quantity - q)), (purchase_sweet sweet_id q db).2))
    ∧ (s.quantity < q →
        purchase_sweet sweet_id q db = (false, db)
        ∧ purchase_sweet_endpoint sweet_id q db
          = (ApiResult.err 400 "Insufficient quantity in stock", db)) := by
  refine ⟨?_, ?_, ?_⟩
  · by_cases hlt : s.quantity < q
    · simp [purchase_sweet, h, hlt]
    · simp [purchase_sweet, h, hlt]
      omega
  · intro hle
    have hlt : ¬ s.quantity < q := by omega
    have hps : purchase_sweet sweet_id q db
        = (true, db.withSweets (setQuantity sweet_id (s.quantity - q) db.sweets)) := by
      simp [purchase_sweet, h, hlt]
    have hread := get_sweet_by_id_setQuantity_eq sweet_id (s.quantity - q) db s h
    refine ⟨by rw [hps]; exact hread, ?_⟩
    simp [purchase_sweet_endpoint, h, hps, hread]
  · intro hlt
    have hps : purchase_sweet sweet_id q db = (false, db) := by
      simp [purchase_sweet, h, hlt]
    refine ⟨hps, ?_⟩
    simp [purchase_sweet_endpoint, h, hps]

/-- C3: the claim states that a purchase request with non-positive quantity
is rejected as a validation error before the stock-adjustment logic runs and
leaves stock unchanged. Evaluating the embedded endpoint on quantity -5
against the Ladoo item with stock 3 refutes this: the request reaches
`purchase_sweet`, succeeds, and changes the stored stock from 3 to 8. -/
theorem C3_nonpositive_purchase_reaches_ledger :
    get_sweet_by_id 1 dbLadoo3 = some (Sweet.mk 1 "Ladoo" "Indian" (5/2 : Rat) 3 "t0")
    ∧ (purchase_sweet 1 (-5) dbLadoo3).1 = true
    ∧ purchase_sweet_endpoint 1 (-5) dbLadoo3
        = (ApiResult.ok (Sweet.mk 1 "Ladoo" "Indian" (5/2 : Rat) 8 "t0"),
           (purchase_sweet 1 (-5) dbLadoo3).2)
    ∧ get_sweet_by_id 1 (purchase_sweet_endpoint 1 (-5) dbLadoo3).2
        = some (Sweet.mk 1 "Ladoo" "Indian" (5/2 : Rat) 8 "t0") := by
  exact ⟨rfl, rfl, rfl, rfl⟩

/-- C4: at a registration whose username is fresh, the admin flag of the new
account is true iff the count of already-registered accounts is 0 or the
submitted admin-claim string equals the configured admin secret "aswd" under
exact case-sensitive string comparison (a missing claim never matches); the
account is appended to the store and the issued token carries the same
flag. In particular the first account ever is admin regardless of the claim
and a later account without the correct secret is non-admin. -/
theorem C4_admin_designation (username password : String) (admin_key : Option String)
    (now : String) (tnow window : Int) (secret : String) (db : DB)
    (h : get_user_by_username username db = none) :
    (register username password admin_key now tnow window secret db).2.users
      = db.users ++ [User.mk db.nextUserId username (hash_password password)
          ((decide (db.users.length = 0)) || (decide (admin_key = some "aswd"))) now]
    ∧ ((((decide (db.users.length = 0)) || (decide (admin_key = some "aswd"))) = true)
        ↔ (db.users.length = 0 ∨ admin_key = some "aswd"))
    ∧ (register username password admin_key now tnow window secret db).1
        = ApiResult.ok (create_access_token
            (TokenPayload.mk username
              ((decide (db.users.length = 0)) || (decide (admin_key = some "aswd"))))
            tnow window secret) := by
  have hany := users_any_eq_false username db h
  refine ⟨?_, by simp, ?_⟩ <;> simp [register, create_user, h, hany]

/-- C5 counterexample: the claim states that a request with a missing token
receives the authentication-failure classification 401. On the served route
the missing-credential case is rejected by the HTTPBearer security scheme
with status 403 "Not authenticated" — the same classification as an
authorization failure — before `get_current_user` runs, so the claim fails
at this concrete input. -/
theorem C5_counterexample_missing_token_is_403 :
    get_admin_user none 0 "k" dbUsers2 = ApiResult.err 403 "Not authenticated"
    ∧ restock_route none 0 "k" 1 5 dbLadoo = (ApiResult.err 403 "Not authenticated", dbLadoo)
    ∧ (403 : Nat) ≠ 401 := by
  exact ⟨rfl, rfl, by decide⟩

/-- C5 (amended): for requests that present a token, rejections are
distinguishable by class — a malformed, expired, or forged token, or a token
whose subject no longer resolves to an account, yields 401, while a
successfully resolved identity whose admin flag is false on an admin-only
operation yields 403 "Admin access required" and never executes the
operation (the store is returned untouched) and never receives 401; a
request with a missing token, however, yields the framework rejection 403
"Not authenticated", not 401. -/
theorem C5_auth_classification (cred : Option PresentedToken) (tok : PresentedToken)
    (p : TokenPayload) (u : CurrentUser) (now : Int) (secret : String)
    (sweet_id : Nat) (q : Int) (db : DB) :
    (verify_token tok now secret = none →
       get_current_user (some tok) now secret db = ApiResult.err 401 "Invalid or expired token")
    ∧ (verify_token tok now secret = some p → get_user_by_username p.sub db = none →
       get_current_user (some tok) now secret db = ApiResult.err 401 "User not found")
    ∧ (get_current_user cred now secret db = ApiResult.ok u → u.is_admin = false →
       get_admin_user cred now secret db = ApiResult.err 403 "Admin access required"
       ∧ restock_route cred now secret sweet_id q db
           = (ApiResult.err 403 "Admin access required", db))
    ∧ get_current_user none now secret db = ApiResult.err 403 "Not authenticated" := by
  refine ⟨?_, ?_, ?_, rfl⟩
  · intro hv
    simp [get_current_user, hv]
  · intro hv hu
    simp [get_current_user, hv, hu]
  · intro hres hadm
    have hga : get_admin_user cred now secret db = ApiResult.err 403 "Admin access required" := by
      simp [get_admin_user, hres, hadm]
    exact ⟨hga, by simp [restock_route, hga]⟩

/-- C6: a registration attempt whose username equals the username of an
existing account fails with the conflict rejection 400
"Username already exists" and performs no mutation at all: the returned
store is the input store (no account row created, existing rows untouched)
and the result carries no access token. -/
theorem C6_duplicate_registration_conflict (username password : String)
    (admin_key : Option String) (now : String) (tnow window : Int)
    (secret : String) (db : DB) (u : User)
    (h : get_user_by_username username db = some u) :
    register username password admin_key now tnow window secret db
      = (ApiResult.err 400 "Username already exists", db) := by
  simp [register, h]

/-- C7: for a positive quantity q, the restock operation fails iff the item
id resolves to no record — in particular it fails after the item is deleted,
and the endpoint answers 404 "Sweet not found" — and whenever the item
exists, restock succeeds unconditionally, the stock increases by exactly q
(no upper bound: the new quantity is the unbounded integer sum), and the
endpoint answers with the updated row. -/
theorem C7_restock_total_on_existing (sweet_id : Nat) (q : Int) (db : DB)
    (hq : 0 < q) :
    ((restock_sweet sweet_id q db).1 = false ↔ get_sweet_by_id sweet_id db = none)
    ∧ (∀ s : Sweet, get_sweet_by_id sweet_id db = some s →
        (restock_sweet sweet_id q db).1 = true
        ∧ get_sweet_by_id sweet_id (restock_sweet sweet_id q db).2
            = some (s.withQuantity (s.quantity + q))
        ∧ restock_sweet_endpoint sweet_id q db
            = (ApiResult.ok (s.withQuantity (s.quantity + q)), (restock_sweet sweet_id q db).2))
    ∧ (get_sweet_by_id sweet_id db = none →
        restock_sweet_endpoint sweet_id q db = (ApiResult.err 404 "Sweet not found", db))
    ∧ get_sweet_by_id sweet_id (delete_sweet sweet_id db).2 = none := by
  refine ⟨?_, ?_, ?_, get_sweet_by_id_delete sweet_id db⟩
  · cases hfind : get_sweet_by_id sweet_id db with
    | none => simp [restock_sweet, hfind]
    | some row => simp [restock_sweet, hfind]
  · intro s hs
    have hrs : restock_sweet sweet_id q db
        = (true, db.withSweets (setQuantity sweet_id (s.quantity + q) db.sweets)) := by
      simp [restock_sweet, hs]
    have hread := get_sweet_by_id_setQuantity_eq sweet_id (s.quantity + q) db s hs
    refine ⟨by rw [hrs], by rw [hrs]; exact hread, ?_⟩
    simp [restock_sweet_endpoint, hs, hrs, hread]
  · intro hnone
    simp [restock_sweet_endpoint, hnone]

/-- C8 counterexample: the claim states that for every existing item and
positive q, restock(id, q) followed by purchase(id, q) succeeds and returns
the stock to its pre-restock value. Starting from the reachable store
holding an item with stored quantity -1 (created through the unvalidated
add-item operation), restocking 1 and then purchasing 1 refutes it: the
purchase fails (stock 0 < 1) and the final stock is 0, not the pre-restock
value -1. -/
theorem C8_counterexample_negative_stock :
    get_sweet_by_id 1 dbNeg = some (Sweet.mk 1 "Barfi" "Indian" 1 (-1) "t0")
    ∧ (restock_sweet 1 1 dbNeg).1 = true
    ∧ (purchase_sweet 1 1 (restock_sweet 1 1 dbNeg).2).1 = false
    ∧ get_sweet_by_id 1 (purchase_sweet 1 1 (restock_sweet 1 1 dbNeg).2).2
        = some (Sweet.mk 1 "Barfi" "Indian" 1 0 "t0")
    ∧ (0 : Int) ≠ -1 := by
  exact ⟨rfl, rfl, rfl, rfl, by decide⟩

/-- C8 (amended): for every existing item whose stored stock is non-negative
and every positive quantity q, restock(id, q) followed immediately by
purchase(id, q) succeeds in both steps and returns the item row — its stock
in particular — to exactly its pre-restock value. -/
theorem C8_restock_purchase_roundtrip (sweet_id : Nat) (q : Int) (db : DB)
    (s : Sweet) (h : get_sweet_by_id sweet_id db = some s)
    (h0 : 0 ≤ s.quantity) (hq : 0 < q) :
    (restock_sweet sweet_id q db).1 = true
    ∧ (purchase_sweet sweet_id q (restock_sweet sweet_id q db).2).1 = true
    ∧ get_sweet_by_id sweet_id (purchase_sweet sweet_id q (restock_sweet sweet_id q db).2).2
        = some s := by
  have hrs : restock_sweet sweet_id q db
      = (true, db.withSweets (setQuantity sweet_id (s.quantity + q) db.sweets)) := by
    simp [restock_sweet, h]
  have hread1 := get_sweet_by_id_setQuantity_eq sweet_id (s.quantity + q) db s h
  have hlt : ¬ (s.withQuantity (s.quantity + q)).quantity < q := by
    show ¬ s.quantity + q < q
    omega
  have hps : purchase_sweet sweet_id q (restock_sweet sweet_id q db).2
      = (true, (restock_sweet sweet_id q db).2.withSweets
          (setQuantity sweet_id ((s.withQuantity (s.quantity + q)).quantity - q)
            (restock_sweet sweet_id q db).2.sweets)) := by
    rw [hrs]
    simp [purchase_sweet, hread1, hlt]
  have hread2 := get_sweet_by_id_setQuantity_eq sweet_id
    ((s.withQuantity (s.quantity + q)).quantity - q) (restock_sweet sweet_id q db).2
    (s.withQuantity (s.quantity + q)) (by rw [hrs]; exact hread1)
  refine ⟨by rw [hrs], by rw [hps], ?_⟩
  rw [hps]
  rw [hread2]
  have hq2 : (s.withQuantity (s.quantity + q)).quantity - q = s.quantity := by
    show s.quantity + q - q = s.quantity
    omega
  rw [hq2]
  exact congrArg some (Sweet.withQuantity_self s)

/-- C9: for every subject and admin flag, verifying a token produced by the
issue operation under the same secret at any time strictly before the
expiration instant (issue time + validity window) returns the decoded
identity — subject and admin flag — and verifying it at any time at or after
the expiration instant returns `none` (the invalid marker, never an
exception at the caller boundary). -/
theorem C9_token_verify_roundtrip (sub : String) (adm : Bool)
    (t0 window t : Int) (secret : String) :
    (t < t0 + window →
       verify_token (create_access_token (TokenPayload.mk sub adm) t0 window secret) t secret
         = some (TokenPayload.mk sub adm))
    ∧ (t0 + window ≤ t →
       verify_token (create_access_token (TokenPayload.mk sub adm) t0 window secret) t secret
         = none) := by
  constructor
  · intro h
    simp [create_access_token, verify_token, h]
  · intro h
    have hn : ¬ t < t0 + window := by omega
    simp [create_access_token, verify_token, hn]

/-- C10: a successful purchase or restock changes only the quantity column
of the row with the given id: the users table and both AUTOINCREMENT
counters are untouched, every other item id resolves to exactly the same
row as before, and the target id resolves to its old row with only the
quantity replaced (by old - q for purchase, old + q for restock), keeping
name, category, price and created_at. -/
theorem C10_purchase_restock_frame (sweet_id : Nat) (q : Int) (db : DB) :
    ((purchase_sweet sweet_id q db).1 = true →
       (purchase_sweet sweet_id q db).2.users = db.users
       ∧ (purchase_sweet sweet_id q db).2.nextUserId = db.nextUserId
       ∧ (purchase_sweet sweet_id q db).2.nextSweetId = db.nextSweetId
       ∧ (∀ j, j ≠ sweet_id →
           get_sweet_by_id j (purchase_sweet sweet_id q db).2 = get_sweet_by_id j db)
       ∧ (∀ s, get_sweet_by_id sweet_id db = some s →
           get_sweet_by_id sweet_id (purchase_sweet sweet_id q db).2
             = some (s.withQuantity (s.quantity - q))))
    ∧ ((restock_sweet sweet_id q db).1 = true →
       (restock_sweet sweet_id q db).2.users = db.users
       ∧ (restock_sweet sweet_id q db).2.nextUserId = db.nextUserId
       ∧ (restock_sweet sweet_id q db).2.nextSweetId = db.nextSweetId
       ∧ (∀ j, j ≠ sweet_id →
           get_sweet_by_id j (restock_sweet sweet_id q db).2 = get_sweet_by_id j db)
       ∧ (∀ s, get_sweet_by_id sweet_id db = some s →
           get_sweet_by_id sweet_id (restock_sweet sweet_id q db).2
             = some (s.withQuantity (s.quantity + q)))) := by
  constructor
  · intro hsucc
    cases hfind : get_sweet_by_id sweet_id db with
    | none => simp [purchase_sweet, hfind] at hsucc
    | some row =>
      by_cases hlt : row.quantity < q
      · simp [purchase_sweet, hfind, hlt] at hsucc
      · have hps : purchase_sweet sweet_id q db
            = (true, db.withSweets (setQuantity sweet_id (row.quantity - q) db.sweets)) := by
          simp [purchase_sweet, hfind, hlt]
        rw [hps]
        refine ⟨rfl, rfl, rfl, ?_, ?_⟩
        · intro j hj
          exact get_sweet_by_id_setQuantity_ne sweet_id j (row.quantity - q) db hj
        · intro s hs
          have hrows : row = s := by injection hs
          subst hrows
          exact get_sweet_by_id_setQuantity_eq sweet_id (row.quantity - q) db row hfind
  · intro hsucc
    cases hfind : get_sweet_by_id sweet_id db with
    | none => simp [restock_sweet, hfind] at hsucc
    | some row =>
      have hrs : restock_sweet sweet_id q db
          = (true, db.withSweets (setQuantity sweet_id (row.quantity + q) db.sweets)) := by
        simp [restock_sweet, hfind]
      rw [hrs]
      refine ⟨rfl, rfl, rfl, ?_, ?_⟩
      · intro j hj
        exact get_sweet_by_id_setQuantity_ne sweet_id j (row.quantity + q) db hj
      · intro s hs
        have hrows : row = s := by injection hs
        subst hrows
        exact get_sweet_by_id_setQuantity_eq sweet_id (row.quantity + q) db row hfind

/-!
Witnesses: each hypothesis-bearing claim theorem instantiated at a concrete
input, with every hypothesis discharged by evaluation.
-/

/-- C2 instantiated on the spec scenario: Ladoo with stock 10, purchase 7
succeeds leaving stock 3, then purchase 5 on stock 3 fails with 400 and the
store unchanged. -/
theorem C2_witness :
    get_sweet_by_id 1 dbLadoo = some (Sweet.mk 1 "Ladoo" "Indian" (5/2 : Rat) 10 "t0")
    ∧ (0 : Int) < 7
    ∧ purchase_sweet_endpoint 1 7 dbLadoo
        = (ApiResult.ok (Sweet.mk 1 "Ladoo" "Indian" (5/2 : Rat) 3 "t0"),
           (purchase_sweet 1 7 dbLadoo).2)
    ∧ get_sweet_by_id 1 dbLadoo3 = some (Sweet.mk 1 "Ladoo" "Indian" (5/2 : Rat) 3 "t0")
    ∧ (0 : Int) < 5
    ∧ purchase_sweet 1 5 dbLadoo3 = (false, dbLadoo3)
    ∧ purchase_sweet_endpoint 1 5 dbLadoo3
        = (ApiResult.err 400 "Insufficient quantity in stock", dbLadoo3) := by
  refine ⟨rfl, by decide, ?_, rfl, by decide, ?_, ?_⟩
  · exact ((C2_purchase_sufficiency 1 7 dbLadoo
      (Sweet.mk 1 "Ladoo" "Indian" (5/2 : Rat) 10 "t0") rfl (by decide)).2.1 (by decide)).2
  · exact ((C2_purchase_sufficiency 1 5 dbLadoo3
      (Sweet.mk 1 "Ladoo" "Indian" (5/2 : Rat) 3 "t0") rfl (by decide)).2.2 (by decide)).1
  · exact ((C2_purchase_sufficiency 1 5 dbLadoo3
      (Sweet.mk 1 "Ladoo" "Indian" (5/2 : Rat) 3 "t0") rfl (by decide)).2.2 (by decide)).2

/-- C4 instantiated: the first registration (empty store, no admin key)
creates an admin account; a later registration without the admin key creates
a non-admin account. -/
theorem C4_witness :
    get_user_by_username "alice" emptyDB = none
    ∧ (register "alice" "pw" none "t1" 0 24 "k" emptyDB).2.users
        = [User.mk 1 "alice" (hash_password "pw") true "t1"]
    ∧ get_user_by_username "bob" dbAlice = none
    ∧ (register "bob" "pw" none "t2" 0 24 "k" dbAlice).2.users
        = dbAlice.users ++ [User.mk 2 "bob" (hash_password "pw") false "t2"] := by
  refine ⟨rfl, ?_, rfl, ?_⟩
  · exact (C4_admin_designation "alice" "pw" none "t1" 0 24 "k" emptyDB rfl).1
  · exact (C4_admin_designation "bob" "pw" none "t2" 0 24 "k" dbAlice rfl).1

/-- C5 (amended) instantiated: malformed token gives 401, unknown subject
gives 401, the valid non-admin token of bob on the admin-only restock route
gives 403 with the store untouched. -/
theorem C5_witness :
    get_current_user (some PresentedToken.malformed) 0 "k" dbUsers2
        = ApiResult.err 401 "Invalid or expired token"
    ∧ get_current_user (some tokGhost) 0 "k" dbUsers2 = ApiResult.err 401 "User not found"
    ∧ get_admin_user (some tokBob) 0 "k" dbUsers2 = ApiResult.err 403 "Admin access required"
    ∧ restock_route (some tokBob) 0 "k" 1 5 dbUsers2
        = (ApiResult.err 403 "Admin access required", dbUsers2) := by
  refine ⟨?_, ?_, ?_, ?_⟩
  · exact (C5_auth_classification (some PresentedToken.malformed) PresentedToken.malformed
      (TokenPayload.mk "" false) (CurrentUser.mk 0 "" false) 0 "k" 1 5 dbUsers2).1 rfl
  · exact (C5_auth_classification (some tokGhost) tokGhost
      (TokenPayload.mk "ghost" true) (CurrentUser.mk 0 "" false) 0 "k" 1 5 dbUsers2).2.1 rfl rfl
  · exact ((C5_auth_classification (some tokBob) tokBob
      (TokenPayload.mk "bob" false) (CurrentUser.mk 2 "bob" false) 0 "k" 1 5 dbUsers2).2.2.1 rfl rfl).1
  · exact ((C5_auth_classification (some tokBob) tokBob
      (TokenPayload.mk "bob" false) (CurrentUser.mk 2 "bob" false) 0 "k" 1 5 dbUsers2).2.2.1 rfl rfl).2

/-- C6 instantiated: registering the taken username alice again fails with
400 and leaves the store exactly as it was. -/
theorem C6_witness :
    get_user_by_username "alice" dbUsers2
        = some (User.mk 1 "alice" (hash_password "pw") true "t1")
    ∧ register "alice" "pw2" (some "aswd") "t3" 0 24 "k" dbUsers2
        = (ApiResult.err 400 "Username already exists", dbUsers2) := by
  exact ⟨rfl, C6_duplicate_registration_conflict "alice" "pw2" (some "aswd") "t3" 0 24 "k"
    dbUsers2 (User.mk 1 "alice" (hash_password "pw") true "t1") rfl⟩

/-- C7 instantiated: restocking the existing Ladoo by 4 succeeds and stock
becomes 14; restocking the missing id 2 answers 404; after deleting id 1 the
id no longer resolves. -/
theorem C7_witness :
    (0 : Int) < 4
    ∧ ((restock_sweet 1 4 dbLadoo).1 = false ↔ get_sweet_by_id 1 dbLadoo = none)
    ∧ get_sweet_by_id 1 (restock_sweet 1 4 dbLadoo).2
        = some (Sweet.mk 1 "Ladoo" "Indian" (5/2 : Rat) 14 "t0")
    ∧ restock_sweet_endpoint 2 4 dbLadoo = (ApiResult.err 404 "Sweet not found", dbLadoo)
    ∧ get_sweet_by_id 1 (delete_sweet 1 dbLadoo).2 = none := by
  refine ⟨by decide, ?_, ?_, ?_, ?_⟩
  · exact (C7_restock_total_on_existing 1 4 dbLadoo (by decide)).1
  · exact ((C7_restock_total_on_existing 1 4 dbLadoo (by decide)).2.1
      (Sweet.mk 1 "Ladoo" "Indian" (5/2 : Rat) 10 "t0") rfl).2.1
  · exact (C7_restock_total_on_existing 2 4 dbLadoo (by decide)).2.2.1 rfl
  · exact (C7_restock_total_on_existing 1 4 dbLadoo (by decide)).2.2.2

/-- C8 (amended) instantiated: restock 4 then purchase 4 on the Ladoo item
with non-negative stock 10 returns its row, stock included, to the
pre-restock value. -/
theorem C8_witness :
    get_sweet_by_id 1 dbLadoo = some (Sweet.mk 1 "Ladoo" "Indian" (5/2 : Rat) 10 "t0")
    ∧ (0 : Int) ≤ 10
    ∧ (0 : Int) < 4
    ∧ (restock_sweet 1 4 dbLadoo).1 = true
    ∧ (purchase_sweet 1 4 (restock_sweet 1 4 dbLadoo).2).1 = true
    ∧ get_sweet_by_id 1 (purchase_sweet 1 4 (restock_sweet 1 4 dbLadoo).2).2
        = some (Sweet.mk 1 "Ladoo" "Indian" (5/2 : Rat) 10 "t0") := by
  have h := C8_restock_purchase_roundtrip 1 4 dbLadoo
    (Sweet.mk 1 "Ladoo" "Indian" (5/2 : Rat) 10 "t0") rfl (by decide) (by decide)
  exact ⟨rfl, by decide, by decide, h.1, h.2.1, h.2.2⟩

/-- C9 instantiated: a token issued at time 0 with a 24-unit validity window
verifies to its identity at time 10 and is invalid at time 24. -/
theorem C9_witness :
    verify_token (create_access_token (TokenPayload.mk "alice" true) 0 24 "k") 10 "k"
        = some (TokenPayload.mk "alice" true)
    ∧ verify_token (create_access_token (TokenPayload.mk "alice" true) 0 24 "k") 24 "k"
        = none := by
  exact ⟨(C9_token_verify_roundtrip "alice" true 0 24 10 "k").1 (by decide),
         (C9_token_verify_roundtrip "alice" true 0 24 24 "k").2 (by decide)⟩

/-- C10 instantiated: the successful purchase of 7 Ladoo leaves the users
table untouched, leaves the absent id 2 resolving as before, and replaces
only the quantity of row 1; a successful restock likewise leaves the users
table untouched. -/
theorem C10_witness :
    (purchase_sweet 1 7 dbLadoo).1 = true
    ∧ (purchase_sweet 1 7 dbLadoo).2.users = dbLadoo.users
    ∧ get_sweet_by_id 2 (purchase_sweet 1 7 dbLadoo).2 = get_sweet_by_id 2 dbLadoo
    ∧ get_sweet_by_id 1 (purchase_sweet 1 7 dbLadoo).2
        = some ((Sweet.mk 1 "Ladoo" "Indian" (5/2 : Rat) 10 "t0").withQuantity (10 - 7))
    ∧ (restock_sweet 1 4 dbLadoo).1 = true
    ∧ (restock_sweet 1 4 dbLadoo).2.users = dbLadoo.users := by
  have h := (C10_purchase_restock_frame 1 7 dbLadoo).1 rfl
  have h2 := (C10_purchase_restock_frame 1 4 dbLadoo).2 rfl
  exact ⟨rfl, h.1, h.2.2.2.1 2 (by decide),
    h.2.2.2.2 (Sweet.mk 1 "Ladoo" "Indian" (5/2 : Rat) 10 "t0") rfl, rfl, h2.1⟩

end SweetShop
